import Mathlib

/-!
# Tenant-isolated vector retrieval pipeline: a verification development

Shallow embedding of the query/retrieval core of the cloudable.ai
repository, together with proofs about it.

The embedded code:

* `validate_input`, `query_knowledge_base` from
  `infras/lambdas/kb_manager/main.py` (the pgvector-backed query path);
* the `/kb/query` branch of the handler in
  `infras/core/lambda_function_simple.py` (the variant that implements the
  cross-tenant isolation filter over a fixed tenant allow-list);
* `query_knowledge_base` and the handler of
  `infras/core/lambda_function_enhanced.py` (the variant that interpolates
  the caller-supplied tenant into the table name);
* the two INSERT statements touching `kb_vectors_{tenant}` tables:
  the `ON CONFLICT (id) DO UPDATE` upsert of
  `temp_cloudable_deploy/infras/envs/us-east-1/test_pgvector.py` and the
  plain INSERT of `sync_document` in `lambda_function_enhanced.py`,
  against the schema `id TEXT PRIMARY KEY` of `setup_pgvector.py`.

Modelling conventions: similarity scores and distances are rationals
(the Python code uses floats, but every claim here is order-theoretic,
not about rounding); external collaborators (embedding model, database
content, completion model) are parameters; each run returns a trace that
records the text sent to the embedding service, the tables named in
executed SQL statements, and the prompts sent to the completion model.
String operations are implemented over `List Char` so that concrete runs
reduce inside the kernel.
-/

namespace Cloudable

/-! ## String utilities, modelling the Python primitives used by the code -/

/-- Python `str.lower()` (ASCII behaviour, which is all the code relies on). -/
def pyLower (s : String) : String := String.mk (s.toList.map Char.toLower)

/-- Python `str.upper()`. -/
def pyUpper (s : String) : String := String.mk (s.toList.map Char.toUpper)

/-- Python `str.capitalize()`: first character upper-cased, rest lower-cased. -/
def pyCapitalize (s : String) : String :=
  match s.toList with
  | [] => ""
  | c :: cs => String.mk (c.toUpper :: cs.map Char.toLower)

/-- Python `str.strip()`: drop whitespace from both ends. -/
def pyStrip (s : String) : String :=
  String.mk (((s.toList.dropWhile Char.isWhitespace).reverse.dropWhile
    Char.isWhitespace).reverse)

/-- Boolean check that `n` is a prefix of `l` (character lists). -/
def prefChk : List Char → List Char → Bool
  | [], _ => true
  | _ :: _, [] => false
  | a :: as, b :: bs => a == b && prefChk as bs

/-- Python `needle in hay` on strings: substring containment. -/
def containsSub (hay needle : String) : Bool :=
  (List.range (hay.toList.length + 1)).any (fun i => prefChk needle.toList (hay.toList.drop i))

/-- Specification-level substring relation: `needle` occurs contiguously in `hay`. -/
def SubstrOf (needle hay : String) : Prop :=
  ∃ i, (hay.toList.drop i).take needle.toList.length = needle.toList

theorem prefChk_iff (n l : List Char) : prefChk n l = true ↔ l.take n.length = n := by
  induction n generalizing l with
  | nil => simp [prefChk]
  | cons a as ih =>
    cases l with
    | nil => simp [prefChk]
    | cons b bs =>
      simp only [prefChk, List.length_cons, List.take_succ_cons, Bool.and_eq_true,
        beq_iff_eq, List.cons.injEq, ih]
      constructor
      · rintro ⟨h1, h2⟩; exact ⟨h1.symm, h2⟩
      · rintro ⟨h1, h2⟩; exact ⟨h1.symm, h2⟩

theorem containsSub_iff (hay needle : String) :
    containsSub hay needle = true ↔ SubstrOf needle hay := by
  unfold containsSub SubstrOf
  rw [List.any_eq_true]
  constructor
  · rintro ⟨i, _, hp⟩
    exact ⟨i, (prefChk_iff _ _).1 hp⟩
  · rintro ⟨i, hi⟩
    by_cases hle : i ≤ hay.toList.length
    · exact ⟨i, List.mem_range.2 (Nat.lt_succ_of_le hle), (prefChk_iff _ _).2 hi⟩
    · have hdrop : hay.toList.drop i = [] :=
        List.drop_eq_nil_of_le (le_of_not_le hle)
      rw [hdrop, List.take_nil] at hi
      refine ⟨0, List.mem_range.2 (Nat.succ_pos _), ?_⟩
      rw [show needle.toList = [] from hi.symm]
      rfl

/-- One character of Python `html.escape` (with `quote=True`, the default):
`&`, `<`, `>`, `"` (codepoint 34) and the apostrophe (codepoint 39) become
entities; everything else is unchanged. -/
def escapeChar (c : Char) : String :=
  if c = '&' then "&amp;"
  else if c = '<' then "&lt;"
  else if c = '>' then "&gt;"
  else if c.toNat = 34 then "&quot;"
  else if c.toNat = 39 then "&#x27;"
  else String.mk [c]

/-- Python `html.escape(s)`. -/
def htmlEscape (s : String) : String := String.join (s.toList.map escapeChar)

/-- Characters of the identifier class `[a-zA-Z0-9_-]`. -/
def isSlugChar (c : Char) : Bool :=
  c.isAlpha || c.isDigit || c = '_' || c = '-'

/-- Python `re.match(r'^[a-zA-Z0-9_-]{1,20}$', s)` as a Boolean.  Python's
`$` also matches just before one trailing newline, so a final `'\n'` is
stripped before the anchored check. -/
def re_match_slug (s : String) : Bool :=
  let core : List Char :=
    match s.toList.getLast? with
    | some c => if c = '\n' then s.toList.dropLast else s.toList
    | none => []
  decide (1 ≤ core.length) && decide (core.length ≤ 20) && core.all isSlugChar

/-- Kernel-computable subtraction on `ℚ` (the library subtraction does not
reduce inside the kernel); `ratSub_eq` below shows it is the real one. -/
def ratSub (a b : ℚ) : ℚ := mkRat (a.num * b.den - b.num * a.den) (a.den * b.den)

theorem ratSub_eq (a b : ℚ) : ratSub a b = a - b := by
  have ha : ((a.den : ℚ)) ≠ 0 := by exact_mod_cast a.den_nz
  have hb : ((b.den : ℚ)) ≠ 0 := by exact_mod_cast b.den_nz
  have key : (a.num : ℚ) / a.den - (b.num : ℚ) / b.den = a - b := by
    rw [Rat.num_div_den, Rat.num_div_den]
  unfold ratSub
  rw [Rat.mkRat_eq_div, ← key, div_sub_div _ _ ha hb]
  push_cast
  ring_nf

example : re_match_slug "acme" = true := by decide
example : re_match_slug "acme!" = false := by decide
example : re_match_slug "" = false := by decide
example : re_match_slug "acme\n" = true := by decide
example : containsSub "what is globex doing" "globex" = true := by decide
example : htmlEscape "a<b" = "a&lt;b" := by decide
example : pyStrip "  ab " = "ab" := by decide

/-! ## `infras/lambdas/kb_manager/main.py`

`validate_input` and `query_knowledge_base`, embedded line by line.  The
error strings are the literal strings of the source; `"Failed to generate
embedding"` and `"Failed to query knowledge base"` stand for the source's
f-strings whose tail interpolates the caught exception text. -/

def msg_tenant_required : String := "Tenant ID is required and must be a string"

def msg_tenant_invalid : String := "Invalid tenant ID format"

def msg_customer_required : String := "Customer ID must be a string"

def msg_customer_invalid : String := "Invalid customer ID format"

def msg_query_short : String := "Query must be at least 3 characters"

def msg_query_long : String := "Query too long (max 1000 characters)"

def msg_embed_failed : String := "Failed to generate embedding"

def msg_query_failed : String := "Failed to query knowledge base"

def answer_no_results : String :=
  "I don't know. I couldn't find any relevant information in the knowledge base."

def answer_not_relevant : String :=
  "I don't know. The information I found doesn't seem relevant to your question."

/-- `validate_input(tenant_id, customer_id=None)`: collects the error
messages exactly as the Python function does.  The function is valid iff
the returned list is empty. -/
def validate_input (tenant_id : String) (customer_id : Option String) : List String :=
  (if tenant_id = "" then [msg_tenant_required]
   else if re_match_slug tenant_id = false then [msg_tenant_invalid]
   else [])
  ++ (match customer_id with
      | none => []
      | some cid =>
        if cid = "" then [msg_customer_required]
        else if re_match_slug cid = false then [msg_customer_invalid]
        else [])

/-- A row of a `kb_vectors_{tenant}` table, as seen by the similarity
query: `dist` is the cosine distance `embedding <=> :embedding` of the
row's embedding to the query embedding (the embedding itself only enters
the SQL through this distance, so the model carries the distance). -/
structure TableRow where
  id : String
  chunk_text : String
  metadata : String
  dist : ℚ
deriving DecidableEq, Repr

/-- One record of the Data API response as `query_knowledge_base`
processes it: `(chunk_text, metadata, 1 - distance AS score)`. -/
structure ResultRecord where
  text : String
  metadata : String
  score : ℚ
deriving DecidableEq, Repr

/-- Ordering requested by `ORDER BY embedding <=> :embedding`: ascending
distance, and nothing else — the statement names no tie-break column. -/
def distLE (a b : TableRow) : Prop := a.dist ≤ b.dist

instance : DecidableRel distLE := fun a b => inferInstanceAs (Decidable (a.dist ≤ b.dist))

instance : IsTotal TableRow distLE := ⟨fun a b => le_total a.dist b.dist⟩

instance : IsTrans TableRow distLE := ⟨fun _ _ _ h1 h2 => le_trans h1 h2⟩

/-- The database's execution of the search statement: rows sorted by the
single `ORDER BY` key (a stable sort — ties keep table order, since the
SQL requests no tie-break), truncated by `LIMIT k`. -/
def searchRows (table : List TableRow) (k : Nat) : List TableRow :=
  (List.insertionSort distLE table).take k

/-- The records returned to the Python code:
`SELECT chunk_text, metadata, 1 - (embedding <=> :embedding) AS score`. -/
def runKbSql (table : List TableRow) (k : Nat) : List ResultRecord :=
  (searchRows table k).map (fun r => ⟨r.chunk_text, r.metadata, ratSub 1 r.dist⟩)

/-- The threshold `0.2` of `if score >= 0.2` (main.py line 306). -/
def simThreshold : ℚ := mkRat 2 10

/-- Lines 300-316 of main.py: keep texts of records with
`score >= 0.2`; if none survive but the record list is non-empty, fall
back to the text of the FIRST record, provided it is non-empty. -/
def rankStage (results : List ResultRecord) : List String :=
  let relevant := (results.filter (fun r => decide (simThreshold ≤ r.score))).map
    (fun r => r.text)
  if relevant = [] ∧ results ≠ [] then
    match results with
    | [] => []
    | top :: _ => if top.text = "" then [] else [top.text]
  else relevant

def prompt_head : String :=
  "Based on the following information from the knowledge base, please answer the user's question. If the information doesn't contain a clear answer, respond with \"I don't know.\"\n\nContext from knowledge base:\n"

def prompt_mid : String := "\n\nUser question: "

def prompt_tail : String :=
  "\n\nPlease provide a helpful and accurate answer based only on the provided context. If you cannot answer based on the context, say \"I don't know.\":"

/-- The grounding prompt f-string of main.py lines 323-330. -/
def mkPrompt (context sanitized_query : String) : String :=
  prompt_head ++ context ++ prompt_mid ++ sanitized_query ++ prompt_tail

/-- The JSON body `query_knowledge_base` returns: every field the code
ever sets, `none` when the corresponding key is absent from the dict. -/
structure KBOutput where
  answer : Option String := none
  sources_count : Option Nat := none
  confidence_scores : Option (List ℚ) := none
  error : Option String := none
  statusCode : Option Nat := none
deriving DecidableEq, Repr

/-- A run of `query_knowledge_base` together with its external-call
trace: the texts sent to the embedding model, the tables named by
executed SQL statements, and the prompts sent to the completion model. -/
structure KBTrace where
  output : KBOutput
  embedInputs : List String := []
  searchTables : List String := []
  completionPrompts : List String := []
deriving DecidableEq, Repr

/-- `query_knowledge_base(tenant_id, customer_id, query)` of main.py
lines 179-360.  Collaborators are parameters: `embedOk` is whether the
Bedrock embedding call succeeds, `db` maps a table name to the rows of
that table, `complete` is the Claude completion call (`none` = raised). -/
def query_knowledge_base (tenant_id : String) (customer_id : Option String)
    (query : String) (embedOk : Bool) (db : String → List TableRow)
    (complete : String → Option String) : KBTrace :=
  let errs := validate_input tenant_id customer_id
  if errs ≠ [] then
    { output := { error := some (String.intercalate "; " errs), statusCode := some 400 } }
  else if (pyStrip query).length < 3 then
    { output := { error := some msg_query_short, statusCode := some 400 } }
  else if 1000 < query.length then
    { output := { error := some msg_query_long, statusCode := some 400 } }
  else
    let sq := htmlEscape (pyStrip query)
    if embedOk = false then
      { output := { error := some msg_embed_failed, statusCode := some 500 },
        embedInputs := [sq] }
    else
      let tbl := "kb_vectors_" ++ tenant_id
      let results := runKbSql (db tbl) 5
      if results = [] then
        { output := { answer := some answer_no_results },
          embedInputs := [sq], searchTables := [tbl] }
      else
        let ranked := rankStage results
        if ranked = [] then
          { output := { answer := some answer_not_relevant },
            embedInputs := [sq], searchTables := [tbl] }
        else
          let prompt := mkPrompt (String.intercalate "\n\n" (ranked.take 3)) sq
          match complete prompt with
          | none =>
            { output := { error := some msg_query_failed, statusCode := some 500 },
              embedInputs := [sq], searchTables := [tbl],
              completionPrompts := [prompt] }
          | some ans =>
            { output := { answer := some ans, sources_count := some results.length,
                          confidence_scores := some ((results.take 3).map (fun r => r.score)) },
              embedInputs := [sq], searchTables := [tbl],
              completionPrompts := [prompt] }

example :
    (query_knowledge_base "acme" (some "c1") "what is globex doing" true
      (fun _ => []) (fun _ => none)).searchTables = ["kb_vectors_acme"] := by decide

example :
    (query_knowledge_base "acme!" (some "c1") "hello" true
      (fun _ => []) (fun _ => none)).output.statusCode = some 400 := by decide

example :
    (query_knowledge_base "acme" (some "c1") "hello" true
      (fun _ => [⟨"i1", "chunk one", "m1", mkRat 1 2⟩])
      (fun _ => some "ANSWER")).output.sources_count = some 1 := by decide

/-! ## `infras/core/lambda_function_simple.py`, the `/kb/query` branch

This is the handler variant that implements the cross-tenant isolation
filter (lines 447-468): the known-tenant allow-list, removal of the
requesting tenant, a substring scan of the lower-cased raw query, and the
fixed privacy-preserving result on detection.  On no detection it serves
the per-tenant mock results of lines 470-510. -/

/-- The allow-list `valid_tenants` / `other_tenants` of the source. -/
def valid_tenants : List String := ["acme", "globex", "initech", "umbrella"]

/-- A result entry of the simple handler: text, metadata dict (as an
association list, in source order), similarity score. -/
structure SimpleDoc where
  text : String
  metadata : List (String × String)
  score : ℚ
deriving DecidableEq, Repr

def privacy_doc (tenant : String) : SimpleDoc :=
  { text := "Information about other organizations is not available. This knowledge base only contains information about " ++ tenant ++ ".",
    metadata := [("source", pyCapitalize tenant ++ " Privacy Policy"),
                 ("section", "Data Access"),
                 ("kb_id", "KB-" ++ pyUpper tenant ++ "-PRIVACY")],
    score := mkRat 99 100 }

def acme_status_doc : SimpleDoc :=
  { text := "ACME Corporation is currently in the Implementation stage (phase 3 of 5), with a projected completion date of December 10, 2025.",
    metadata := [("source", "Customer Journey Report - ACME Manufacturing"),
                 ("section", "Current Status"), ("kb_id", "KB-ACME-2025-11-01")],
    score := mkRat 95 100 }

def acme_metrics_doc : SimpleDoc :=
  { text := "Success metrics include 30% reduction in order processing time (currently at 18%), 25% improvement in inventory accuracy (currently at 20%), and 15% increase in customer satisfaction (currently at 8%).",
    metadata := [("source", "ACME Digital Transformation Progress Report"),
                 ("section", "Success Metrics"), ("kb_id", "KB-ACME-2025-11-05")],
    score := mkRat 91 100 }

def acme_next_doc : SimpleDoc :=
  { text := "Next steps for ACME: Complete supply chain module by November 30, Schedule field service training for December, Prepare final phase deployment plan by November 25.",
    metadata := [("source", "ACME Implementation Roadmap"),
                 ("section", "Next Steps"), ("kb_id", "KB-ACME-2025-11-10")],
    score := mkRat 89 100 }

def globex_status_doc : SimpleDoc :=
  { text := "Globex Industries is currently in the Onboarding stage (phase 1 of 4), with implementation having started on October 2, 2025 and expected completion by June 15, 2026.",
    metadata := [("source", "Globex Industries Onboarding Report"),
                 ("section", "Current Status"), ("kb_id", "KB-GLOBEX-2025-11-08")],
    score := mkRat 93 100 }

def globex_stakeholder_doc : SimpleDoc :=
  { text := "Key stakeholders at Globex include Thomas Wong (CTO), Aisha Patel (CDO), Robert Martinez (Customer Experience), and Jennifer Lee (Compliance Director).",
    metadata := [("source", "Globex Project Charter"),
                 ("section", "Key Stakeholders"), ("kb_id", "KB-GLOBEX-2025-11-01")],
    score := mkRat 97 100 }

def generic_doc (tenant : String) : SimpleDoc :=
  { text := "Information about " ++ tenant ++ " found in customer journey documentation.",
    metadata := [("source", pyCapitalize tenant ++ " Customer Knowledge Base"),
                 ("kb_id", "KB-" ++ pyUpper tenant ++ "-GENERAL")],
    score := mkRat 75 100 }

/-- The per-tenant mock results of the non-blocked path (lines 470-510):
keyword dispatch on the lower-cased raw query, generic fallback result
when nothing matched. -/
def simple_mock_results (tenant query : String) : List SimpleDoc :=
  let ql := pyLower query
  let specific : List SimpleDoc :=
    if tenant = "acme" then
      if containsSub ql "status" = true ∨ containsSub ql "implementation" = true then
        [acme_status_doc]
      else if containsSub ql "metrics" = true ∨ containsSub ql "success" = true then
        [acme_metrics_doc]
      else if containsSub ql "next" = true ∨ containsSub ql "step" = true then
        [acme_next_doc]
      else []
    else if tenant = "globex" then
      if containsSub ql "status" = true ∨ containsSub ql "implementation" = true then
        [globex_status_doc]
      else if containsSub ql "stakeholder" = true then
        [globex_stakeholder_doc]
      else []
    else []
  if specific = [] then [generic_doc tenant] else specific

/-- The HTTP response of the `/kb/query` branch.  On a 200, the body is
`{"results": ..., "query": query}` — note the raw query echoed back. -/
structure SimpleResponse where
  statusCode : Nat
  results : List SimpleDoc := []
  echoedQuery : Option String := none
deriving DecidableEq, Repr

/-- The `/kb/query` branch of `handler` in lambda_function_simple.py.
`rbacOk` is the outcome of the optional RBAC permission check inside
`validate_tenant_access` (the tenant allow-list check is embedded
explicitly).  The filter scans `query.lower()` — the raw query, no
sanitization exists in this handler. -/
def simple_kb_query (tenant query : String) (rbacOk : Bool) : SimpleResponse :=
  if tenant = "" ∨ query = "" then { statusCode := 400 }
  else if ¬ (pyLower tenant ∈ valid_tenants ∧ rbacOk = true) then { statusCode := 403 }
  else
    let others := valid_tenants.erase (pyLower tenant)
    let crossTenant := others.any (fun o => containsSub (pyLower query) o)
    let results :=
      if crossTenant = true then [privacy_doc tenant]
      else simple_mock_results tenant query
    { statusCode := 200, results := results, echoedQuery := some query }

example :
    (simple_kb_query "acme" "what is globex doing" true).results =
      [privacy_doc "acme"] := by decide

example :
    (simple_kb_query "acme" "what is our status" true).results =
      [acme_status_doc] := by decide

/-! ## `infras/core/lambda_function_enhanced.py`

The `/kb/query` branch of its handler plus its `query_knowledge_base`:
the handler only checks that `tenant` and `query` are non-empty (truthy)
before the tenant is interpolated into `FROM kb_vectors_{tenant}`; the
Python similarity is `max(0, 1 - distance)`. -/

structure EnhDoc where
  text : String
  metadata : String
  score : ℚ
deriving DecidableEq, Repr

structure EnhTrace where
  statusCode : Nat
  searchTables : List String := []
  results : List EnhDoc := []
deriving DecidableEq, Repr

def enhanced_kb_query (tenant query : String) (maxResults : Nat)
    (db : String → List TableRow) : EnhTrace :=
  if tenant = "" ∨ query = "" then { statusCode := 400 }
  else
    let tbl := "kb_vectors_" ++ tenant
    let rows := searchRows (db tbl) maxResults
    { statusCode := 200, searchTables := [tbl],
      results := rows.map (fun r => ⟨r.chunk_text, r.metadata, max 0 (ratSub 1 r.dist)⟩) }

/-! ## Inserts into `kb_vectors_{tenant}`

Per `setup_pgvector.py`, the table schema is
`id TEXT PRIMARY KEY, embedding vector(1536), chunk_text TEXT NOT NULL,
metadata JSONB, created_at TIMESTAMPTZ DEFAULT NOW()`.
`test_pgvector.py` inserts with `ON CONFLICT (id) DO UPDATE SET
embedding, chunk_text, metadata`; `sync_document` in
lambda_function_enhanced.py inserts with a plain `INSERT` and no
conflict clause.  (`created_at` is not touched by either statement and
is omitted from the model.) -/

structure StoredRow where
  id : String
  embedding : List ℚ
  chunk_text : String
  metadata : String
deriving DecidableEq, Repr

/-- Ids pairwise distinct: the invariant the PRIMARY KEY maintains. -/
def IdsDistinct (table : List StoredRow) : Prop :=
  List.Pairwise (fun a b : StoredRow => a.id ≠ b.id) table

/-- The row update performed by `ON CONFLICT (id) DO UPDATE SET
embedding = ..., chunk_text = ..., metadata = ...`. -/
def upd_row (r x : StoredRow) : StoredRow :=
  if x.id = r.id then
    { x with embedding := r.embedding, chunk_text := r.chunk_text,
             metadata := r.metadata }
  else x

/-- The upsert of test_pgvector.py lines 84-93: on an existing id,
update `embedding`, `chunk_text`, `metadata` in place; otherwise append. -/
def upsert_insert (table : List StoredRow) (r : StoredRow) : List StoredRow :=
  if table.any (fun x => x.id == r.id) then table.map (upd_row r)
  else table ++ [r]

def dup_key_error : String := "duplicate key value violates unique constraint"

/-- The plain INSERT of `sync_document` (lambda_function_enhanced.py
lines 179-192) against the `id TEXT PRIMARY KEY` schema: a duplicate id
violates the key and the statement fails. -/
def plain_insert (table : List StoredRow) (r : StoredRow) :
    Except String (List StoredRow) :=
  if table.any (fun x => x.id == r.id) then Except.error dup_key_error
  else Except.ok (table ++ [r])

deriving instance DecidableEq for Except

/-! ## Helper lemmas -/

theorem re_match_slug_empty : re_match_slug "" = false := by decide

/-- Branch characterization: invalid ids. -/
theorem qkb_invalid (t : String) (c : Option String) (q : String) (eo : Bool)
    (db : String → List TableRow) (comp : String → Option String)
    (h : validate_input t c ≠ []) :
    query_knowledge_base t c q eo db comp =
      { output := { error := some (String.intercalate "; " (validate_input t c)),
                    statusCode := some 400 } } := by
  simp only [query_knowledge_base]
  rw [if_pos h]

/-- Branch characterization: query too short. -/
theorem qkb_short (t : String) (c : Option String) (q : String) (eo : Bool)
    (db : String → List TableRow) (comp : String → Option String)
    (h : validate_input t c = []) (h3 : (pyStrip q).length < 3) :
    query_knowledge_base t c q eo db comp =
      { output := { error := some msg_query_short, statusCode := some 400 } } := by
  simp only [query_knowledge_base]
  rw [if_neg (by simp [h]), if_pos h3]

/-- Branch characterization: query too long. -/
theorem qkb_long (t : String) (c : Option String) (q : String) (eo : Bool)
    (db : String → List TableRow) (comp : String → Option String)
    (h : validate_input t c = []) (h3 : ¬ (pyStrip q).length < 3)
    (h10 : 1000 < q.length) :
    query_knowledge_base t c q eo db comp =
      { output := { error := some msg_query_long, statusCode := some 400 } } := by
  simp only [query_knowledge_base]
  rw [if_neg (by simp [h]), if_neg h3, if_pos h10]

/-- Branch characterization: embedding call fails. -/
theorem qkb_embed_fail (t : String) (c : Option String) (q : String)
    (db : String → List TableRow) (comp : String → Option String)
    (h : validate_input t c = []) (h3 : ¬ (pyStrip q).length < 3)
    (h10 : ¬ 1000 < q.length) :
    query_knowledge_base t c q false db comp =
      { output := { error := some msg_embed_failed, statusCode := some 500 },
        embedInputs := [htmlEscape (pyStrip q)] } := by
  simp only [query_knowledge_base]
  rw [if_neg (by simp [h]), if_neg h3, if_neg h10, if_pos trivial]

/-- Branch characterization: the similarity search returns no records. -/
theorem qkb_no_results (t : String) (c : Option String) (q : String)
    (db : String → List TableRow) (comp : String → Option String)
    (h : validate_input t c = []) (h3 : ¬ (pyStrip q).length < 3)
    (h10 : ¬ 1000 < q.length)
    (hres : runKbSql (db ("kb_vectors_" ++ t)) 5 = []) :
    query_knowledge_base t c q true db comp =
      { output := { answer := some answer_no_results },
        embedInputs := [htmlEscape (pyStrip q)],
        searchTables := ["kb_vectors_" ++ t] } := by
  simp only [query_knowledge_base]
  rw [if_neg (by simp [h]), if_neg h3, if_neg h10, if_neg (by simp), if_pos hres]

/-- Branch characterization: records retrieved but the ranking stage is
left empty. -/
theorem qkb_not_relevant (t : String) (c : Option String) (q : String)
    (db : String → List TableRow) (comp : String → Option String)
    (h : validate_input t c = []) (h3 : ¬ (pyStrip q).length < 3)
    (h10 : ¬ 1000 < q.length)
    (hres : runKbSql (db ("kb_vectors_" ++ t)) 5 ≠ [])
    (hrank : rankStage (runKbSql (db ("kb_vectors_" ++ t)) 5) = []) :
    query_knowledge_base t c q true db comp =
      { output := { answer := some answer_not_relevant },
        embedInputs := [htmlEscape (pyStrip q)],
        searchTables := ["kb_vectors_" ++ t] } := by
  simp only [query_knowledge_base]
  rw [if_neg (by simp [h]), if_neg h3, if_neg h10, if_neg (by simp), if_neg hres,
    if_pos hrank]

/-- Branch characterization: the completion call raises. -/
theorem qkb_complete_fail (t : String) (c : Option String) (q : String)
    (db : String → List TableRow) (comp : String → Option String)
    (h : validate_input t c = []) (h3 : ¬ (pyStrip q).length < 3)
    (h10 : ¬ 1000 < q.length)
    (hres : runKbSql (db ("kb_vectors_" ++ t)) 5 ≠ [])
    (hrank : rankStage (runKbSql (db ("kb_vectors_" ++ t)) 5) ≠ [])
    (hcomp : comp (mkPrompt
        (String.intercalate "\n\n"
          ((rankStage (runKbSql (db ("kb_vectors_" ++ t)) 5)).take 3))
        (htmlEscape (pyStrip q))) = none) :
    query_knowledge_base t c q true db comp =
      { output := { error := some msg_query_failed, statusCode := some 500 },
        embedInputs := [htmlEscape (pyStrip q)],
        searchTables := ["kb_vectors_" ++ t],
        completionPrompts := [mkPrompt
          (String.intercalate "\n\n"
            ((rankStage (runKbSql (db ("kb_vectors_" ++ t)) 5)).take 3))
          (htmlEscape (pyStrip q))] } := by
  simp only [query_knowledge_base]
  rw [if_neg (by simp [h]), if_neg h3, if_neg h10, if_neg (by simp), if_neg hres,
    if_neg hrank, hcomp]

/-- Branch characterization: the success path. -/
theorem qkb_success (t : String) (c : Option String) (q : String)
    (db : String → List TableRow) (comp : String → Option String) (ans : String)
    (h : validate_input t c = []) (h3 : ¬ (pyStrip q).length < 3)
    (h10 : ¬ 1000 < q.length)
    (hres : runKbSql (db ("kb_vectors_" ++ t)) 5 ≠ [])
    (hrank : rankStage (runKbSql (db ("kb_vectors_" ++ t)) 5) ≠ [])
    (hcomp : comp (mkPrompt
        (String.intercalate "\n\n"
          ((rankStage (runKbSql (db ("kb_vectors_" ++ t)) 5)).take 3))
        (htmlEscape (pyStrip q))) = some ans) :
    query_knowledge_base t c q true db comp =
      { output := { answer := some ans,
                    sources_count := some (runKbSql (db ("kb_vectors_" ++ t)) 5).length,
                    confidence_scores := some
                      (((runKbSql (db ("kb_vectors_" ++ t)) 5).take 3).map
                        (fun r => r.score)) },
        embedInputs := [htmlEscape (pyStrip q)],
        searchTables := ["kb_vectors_" ++ t],
        completionPrompts := [mkPrompt
          (String.intercalate "\n\n"
            ((rankStage (runKbSql (db ("kb_vectors_" ++ t)) 5)).take 3))
          (htmlEscape (pyStrip q))] } := by
  simp only [query_knowledge_base]
  rw [if_neg (by simp [h]), if_neg h3, if_neg h10, if_neg (by simp), if_neg hres,
    if_neg hrank, hcomp]

/-- The tenant messages appear in the error list exactly when the tenant
id is empty or fails the pattern. -/
theorem tenant_error_iff (t : String) (c : Option String) :
    (msg_tenant_required ∈ validate_input t c ∨ msg_tenant_invalid ∈ validate_input t c)
      ↔ (t = "" ∨ re_match_slug t = false) := by
  rcases c with _ | cid <;> simp only [validate_input] <;> split_ifs <;>
    simp_all [msg_tenant_required, msg_tenant_invalid, msg_customer_required,
      msg_customer_invalid]

/-- The customer messages appear in the error list exactly when a
customer id is provided and fails the pattern. -/
theorem customer_error_iff (t : String) (c : Option String) :
    (msg_customer_required ∈ validate_input t c ∨ msg_customer_invalid ∈ validate_input t c)
      ↔ (∃ cid, c = some cid ∧ re_match_slug cid = false) := by
  rcases c with _ | cid <;> simp only [validate_input] <;> split_ifs <;>
    simp_all [msg_tenant_required, msg_tenant_invalid, msg_customer_required,
      msg_customer_invalid, re_match_slug_empty]

/-- A valid input has a non-empty tenant id matching the pattern. -/
theorem validate_nil_slug (t : String) (c : Option String)
    (h : validate_input t c = []) : t ≠ "" ∧ re_match_slug t = true := by
  rcases c with _ | cid <;> simp only [validate_input] at h <;> split_ifs at h <;>
    simp_all

/-- The joined message of a failed id validation is never one of the two
query-length messages. -/
theorem validate_join_ne (t : String) (c : Option String)
    (h : validate_input t c ≠ []) :
    String.intercalate "; " (validate_input t c) ≠ msg_query_short ∧
      String.intercalate "; " (validate_input t c) ≠ msg_query_long := by
  rcases c with _ | cid <;> simp only [validate_input] at h ⊢ <;>
    split_ifs at h ⊢ <;>
    first
      | exact absurd rfl h
      | decide

/-- The search never returns more than `k` records. -/
theorem runKbSql_length_le (table : List TableRow) (k : Nat) :
    (runKbSql table k).length ≤ k := by
  unfold runKbSql searchRows
  rw [List.length_map]
  exact List.length_take_le _ _

theorem upd_row_id (r x : StoredRow) : (upd_row r x).id = x.id := by
  unfold upd_row
  split_ifs <;> rfl

theorem upd_row_hit (r x : StoredRow) (h : x.id = r.id) : upd_row r x = r := by
  unfold upd_row
  rw [if_pos h]
  cases r
  cases x
  simp_all

/-- Upserting preserves distinctness of ids. -/
theorem upsert_distinct (table : List StoredRow) (r : StoredRow)
    (h : IdsDistinct table) : IdsDistinct (upsert_insert table r) := by
  unfold upsert_insert
  split_ifs with hany
  · exact List.Pairwise.map _ (fun a b hab => by rw [upd_row_id, upd_row_id]; exact hab) h
  · unfold IdsDistinct at h ⊢
    rw [List.pairwise_append]
    refine ⟨h, List.pairwise_singleton _ _, ?_⟩
    intro a ha b hb
    rw [List.mem_singleton] at hb
    subst hb
    intro heq
    rw [List.any_eq_true] at hany
    push_neg at hany
    exact absurd (by simp [heq]) (hany a ha)

theorem filter_map_upd_nil (ys : List StoredRow) (r : StoredRow)
    (hys : ∀ x ∈ ys, x.id ≠ r.id) :
    (ys.map (upd_row r)).filter (fun x => x.id == r.id) = [] := by
  rw [List.filter_eq_nil_iff]
  intro a ha
  rw [List.mem_map] at ha
  obtain ⟨x, hx, hxe⟩ := ha
  subst hxe
  simp [upd_row_id, hys x hx]

theorem filter_upsert_map (table : List StoredRow) (r : StoredRow)
    (h : IdsDistinct table) (hany : ∃ x ∈ table, x.id = r.id) :
    (table.map (upd_row r)).filter (fun x => x.id == r.id) = [r] := by
  induction table with
  | nil => obtain ⟨x, hx, _⟩ := hany; exact absurd hx (List.not_mem_nil x)
  | cons y ys ih =>
    unfold IdsDistinct at h
    rw [List.pairwise_cons] at h
    by_cases hy : y.id = r.id
    · have hmap : (ys.map (upd_row r)).filter (fun x => x.id == r.id) = [] :=
        filter_map_upd_nil ys r (fun x hx => by
          have := h.1 x hx
          rw [← hy]
          exact fun hc => this hc.symm)
      rw [List.map_cons, upd_row_hit r y hy, List.filter_cons]
      simp [hmap]
    · have hany' : ∃ x ∈ ys, x.id = r.id := by
        obtain ⟨x, hx, hxe⟩ := hany
        rcases List.mem_cons.1 hx with hxy | hxm
        · exact absurd (hxy ▸ hxe) hy
        · exact ⟨x, hxm, hxe⟩
      rw [List.map_cons, List.filter_cons]
      have : ((upd_row r y).id == r.id) = false := by
        rw [upd_row_id]
        exact beq_false_of_ne hy
      simp only [this, Bool.false_eq_true, if_false]
      exact ih h.2 hany'

/-- After an upsert, exactly one row carries the inserted id, and it is
the inserted record. -/
theorem upsert_filter (table : List StoredRow) (r : StoredRow)
    (h : IdsDistinct table) :
    (upsert_insert table r).filter (fun x => x.id == r.id) = [r] := by
  unfold upsert_insert
  split_ifs with hany
  · rw [List.any_eq_true] at hany
    obtain ⟨x, hx, hxe⟩ := hany
    exact filter_upsert_map table r h ⟨x, hx, by simpa using hxe⟩
  · rw [List.filter_append]
    have h1 : table.filter (fun x => x.id == r.id) = [] := by
      rw [List.filter_eq_nil_iff]
      intro a ha
      rw [List.any_eq_true] at hany
      push_neg at hany
      simpa using hany a ha
    simp [h1]

/-- Exhaustive case analysis on a run of `query_knowledge_base`: to prove
a property of the returned trace it suffices to prove it for each of the
eight reachable result shapes, under that branch's path conditions. -/
theorem qkb_elim (t : String) (c : Option String) (q : String) (eo : Bool)
    (db : String → List TableRow) (comp : String → Option String)
    (P : KBTrace → Prop)
    (H1 : validate_input t c ≠ [] →
      P { output := { error := some (String.intercalate "; " (validate_input t c)),
                      statusCode := some 400 } })
    (H2 : validate_input t c = [] → (pyStrip q).length < 3 →
      P { output := { error := some msg_query_short, statusCode := some 400 } })
    (H3 : validate_input t c = [] → ¬ (pyStrip q).length < 3 → 1000 < q.length →
      P { output := { error := some msg_query_long, statusCode := some 400 } })
    (H4 : validate_input t c = [] → ¬ (pyStrip q).length < 3 → ¬ 1000 < q.length →
      eo = false →
      P { output := { error := some msg_embed_failed, statusCode := some 500 },
          embedInputs := [htmlEscape (pyStrip q)] })
    (H5 : validate_input t c = [] → ¬ (pyStrip q).length < 3 → ¬ 1000 < q.length →
      eo = true → runKbSql (db ("kb_vectors_" ++ t)) 5 = [] →
      P { output := { answer := some answer_no_results },
          embedInputs := [htmlEscape (pyStrip q)],
          searchTables := ["kb_vectors_" ++ t] })
    (H6 : validate_input t c = [] → ¬ (pyStrip q).length < 3 → ¬ 1000 < q.length →
      eo = true → runKbSql (db ("kb_vectors_" ++ t)) 5 ≠ [] →
      rankStage (runKbSql (db ("kb_vectors_" ++ t)) 5) = [] →
      P { output := { answer := some answer_not_relevant },
          embedInputs := [htmlEscape (pyStrip q)],
          searchTables := ["kb_vectors_" ++ t] })
    (H7 : validate_input t c = [] → ¬ (pyStrip q).length < 3 → ¬ 1000 < q.length →
      eo = true → runKbSql (db ("kb_vectors_" ++ t)) 5 ≠ [] →
      rankStage (runKbSql (db ("kb_vectors_" ++ t)) 5) ≠ [] →
      comp (mkPrompt
        (String.intercalate "\n\n"
          ((rankStage (runKbSql (db ("kb_vectors_" ++ t)) 5)).take 3))
        (htmlEscape (pyStrip q))) = none →
      P { output := { error := some msg_query_failed, statusCode := some 500 },
          embedInputs := [htmlEscape (pyStrip q)],
          searchTables := ["kb_vectors_" ++ t],
          completionPrompts := [mkPrompt
            (String.intercalate "\n\n"
              ((rankStage (runKbSql (db ("kb_vectors_" ++ t)) 5)).take 3))
            (htmlEscape (pyStrip q))] })
    (H8 : ∀ ans, validate_input t c = [] → ¬ (pyStrip q).length < 3 →
      ¬ 1000 < q.length →
      eo = true → runKbSql (db ("kb_vectors_" ++ t)) 5 ≠ [] →
      rankStage (runKbSql (db ("kb_vectors_" ++ t)) 5) ≠ [] →
      comp (mkPrompt
        (String.intercalate "\n\n"
          ((rankStage (runKbSql (db ("kb_vectors_" ++ t)) 5)).take 3))
        (htmlEscape (pyStrip q))) = some ans →
      P { output := { answer := some ans,
                      sources_count := some (runKbSql (db ("kb_vectors_" ++ t)) 5).length,
                      confidence_scores := some
                        (((runKbSql (db ("kb_vectors_" ++ t)) 5).take 3).map
                          (fun r => r.score)) },
          embedInputs := [htmlEscape (pyStrip q)],
          searchTables := ["kb_vectors_" ++ t],
          completionPrompts := [mkPrompt
            (String.intercalate "\n\n"
              ((rankStage (runKbSql (db ("kb_vectors_" ++ t)) 5)).take 3))
            (htmlEscape (pyStrip q))] }) :
    P (query_knowledge_base t c q eo db comp) := by
  by_cases h : validate_input t c = []
  · by_cases h3 : (pyStrip q).length < 3
    · rw [qkb_short t c q eo db comp h h3]
      exact H2 h h3
    · by_cases h10 : 1000 < q.length
      · rw [qkb_long t c q eo db comp h h3 h10]
        exact H3 h h3 h10
      · cases eo with
        | false =>
          rw [qkb_embed_fail t c q db comp h h3 h10]
          exact H4 h h3 h10 rfl
        | true =>
          by_cases hres : runKbSql (db ("kb_vectors_" ++ t)) 5 = []
          · rw [qkb_no_results t c q db comp h h3 h10 hres]
            exact H5 h h3 h10 rfl hres
          · by_cases hrank : rankStage (runKbSql (db ("kb_vectors_" ++ t)) 5) = []
            · rw [qkb_not_relevant t c q db comp h h3 h10 hres hrank]
              exact H6 h h3 h10 rfl hres hrank
            · cases hcomp : comp (mkPrompt
                (String.intercalate "\n\n"
                  ((rankStage (runKbSql (db ("kb_vectors_" ++ t)) 5)).take 3))
                (htmlEscape (pyStrip q))) with
              | none =>
                rw [qkb_complete_fail t c q db comp h h3 h10 hres hrank hcomp]
                exact H7 h h3 h10 rfl hres hrank hcomp
              | some ans =>
                rw [qkb_success t c q db comp ans h h3 h10 hres hrank hcomp]
                exact H8 ans h h3 h10 rfl hres hrank hcomp
  · rw [qkb_invalid t c q eo db comp h]
    exact H1 h

/-! ## Claim theorems -/

/-- Claim C10: whenever the output of `query_knowledge_base` carries a
`sources_count`, it is at most 5, and any `confidence_scores` list has at
most 3 entries — the similarity SQL requests `LIMIT 5` and the confidence
list is taken from the first three results, a ceiling no caller input can
raise. -/
theorem c10_result_bounds (t : String) (c : Option String) (q : String)
    (eo : Bool) (db : String → List TableRow) (comp : String → Option String) :
    (∀ n, (query_knowledge_base t c q eo db comp).output.sources_count = some n →
      n ≤ 5) ∧
    (∀ cs, (query_knowledge_base t c q eo db comp).output.confidence_scores = some cs →
      cs.length ≤ 3) := by
  refine qkb_elim t c q eo db comp
    (fun tr => (∀ n, tr.output.sources_count = some n → n ≤ 5) ∧
      (∀ cs, tr.output.confidence_scores = some cs → cs.length ≤ 3))
    ?_ ?_ ?_ ?_ ?_ ?_ ?_ ?_
  · intro _; exact ⟨fun n hn => by simp at hn, fun cs hc => by simp at hc⟩
  · intro _ _; exact ⟨fun n hn => by simp at hn, fun cs hc => by simp at hc⟩
  · intro _ _ _; exact ⟨fun n hn => by simp at hn, fun cs hc => by simp at hc⟩
  · intro _ _ _ _; exact ⟨fun n hn => by simp at hn, fun cs hc => by simp at hc⟩
  · intro _ _ _ _ _; exact ⟨fun n hn => by simp at hn, fun cs hc => by simp at hc⟩
  · intro _ _ _ _ _ _; exact ⟨fun n hn => by simp at hn, fun cs hc => by simp at hc⟩
  · intro _ _ _ _ _ _ _
    exact ⟨fun n hn => by simp at hn, fun cs hc => by simp at hc⟩
  · intro ans _ _ _ _ _ _ _
    constructor
    · intro n hn
      have hb := runKbSql_length_le (db ("kb_vectors_" ++ t)) 5
      simp at hn
      omega
    · intro cs hc
      simp at hc
      subst hc
      simp

/-- Claim C10 witness: a concrete successful run has `sources_count = 2`,
within the proved bound. -/
theorem c10_witness :
    (query_knowledge_base "acme" (some "c1") "what is our status" true
        (fun _ => [⟨"i1", "chunk one", "m1", 0⟩, ⟨"i2", "chunk two", "m1", mkRat 1 2⟩])
        (fun _ => some "ANSWER")).output.sources_count = some 2 ∧ (2 : Nat) ≤ 5 := by
  refine ⟨by decide, ?_⟩
  exact (c10_result_bounds "acme" (some "c1") "what is our status" true
    (fun _ => [⟨"i1", "chunk one", "m1", 0⟩, ⟨"i2", "chunk two", "m1", mkRat 1 2⟩])
    (fun _ => some "ANSWER")).1 2 (by decide)

/-- Claim C9 counterexample: the ingestion-pipeline insert of
`sync_document` is a plain INSERT against `id TEXT PRIMARY KEY`;
re-inserting an existing `chunk_id` with different text fails with a
duplicate-key error instead of overwriting, so the table keeps the old
text — the claim's upsert semantics do not hold for this insert. -/
theorem c9_counterexample :
    plain_insert [⟨"chunk-1", [1], "old text", "m1"⟩]
        ⟨"chunk-1", [2], "new text", "m1"⟩ = Except.error dup_key_error ∧
    ("new text" : String) ≠ "old text" := by decide

/-- Claim C9 (amended): the upsert statement used by `test_pgvector.py`
(`ON CONFLICT (id) DO UPDATE`) is idempotent on `chunk_id`: after two
inserts with the same id on a table with pairwise-distinct ids, the table
holds exactly one row for that id, carrying the latest values, and ids
stay pairwise distinct.  The pipeline insert of `sync_document` is a
plain INSERT without upsert semantics (see the counterexample). -/
theorem c9_upsert_idempotent (table : List StoredRow) (r1 r2 : StoredRow)
    (h : IdsDistinct table) (_hid : r2.id = r1.id) :
    (upsert_insert (upsert_insert table r1) r2).filter (fun x => x.id == r2.id) = [r2] ∧
    IdsDistinct (upsert_insert (upsert_insert table r1) r2) := by
  have h1 := upsert_distinct table r1 h
  exact ⟨upsert_filter _ r2 h1, upsert_distinct _ r2 h1⟩

/-- Claim C9 witness: two concrete upserts of the same id. -/
theorem c9_witness :
    (upsert_insert (upsert_insert [] ⟨"chunk-1", [1], "old text", "m1"⟩)
        ⟨"chunk-1", [2], "new text", "m1"⟩).filter
      (fun x => x.id == ("chunk-1" : String)) = [⟨"chunk-1", [2], "new text", "m1"⟩] :=
  (c9_upsert_idempotent [] ⟨"chunk-1", [1], "old text", "m1"⟩
    ⟨"chunk-1", [2], "new text", "m1"⟩ List.Pairwise.nil rfl).1

/-- Lexicographic-by-codepoint order on chunk ids (strict). -/
def idLtB : List Char → List Char → Bool
  | [], [] => false
  | [], _ :: _ => true
  | _ :: _, [] => false
  | a :: as, b :: bs =>
    if a.toNat < b.toNat then true
    else if b.toNat < a.toNat then false
    else idLtB as bs

/-- Non-strict chunk-id order. -/
def chunkIdLe (s t : String) : Bool := idLtB s.toList t.toList || s == t

def tie_row_b : TableRow := ⟨"b", "text b", "m1", 3⟩

def tie_row_a : TableRow := ⟨"a", "text a", "m1", 3⟩

/-- Claim C7 counterexample: the similarity SQL orders by distance only —
no chunk-id tie-break is requested — so two rows at equal distance (hence
equal score) come back in table order, here with ids descending. -/
theorem c7_counterexample :
    searchRows [tie_row_b, tie_row_a] 5 = [tie_row_b, tie_row_a] ∧
    tie_row_b.dist = tie_row_a.dist ∧
    chunkIdLe tie_row_b.id tie_row_a.id = false := by decide

/-- Claim C7 (amended): search results are ordered by ascending cosine
distance, equivalently by descending similarity score `1 - distance`;
the statement requests no tie-break, so equal-score rows may appear in
any order. -/
theorem c7_ordering (table : List TableRow) (k : Nat) :
    List.Sorted distLE (searchRows table k) ∧
    List.Pairwise (fun a b : TableRow => ratSub 1 b.dist ≤ ratSub 1 a.dist)
      (searchRows table k) := by
  have hs : List.Sorted distLE (searchRows table k) := by
    unfold searchRows
    exact List.Pairwise.sublist (List.take_sublist _ _)
      (List.sorted_insertionSort distLE table)
  refine ⟨hs, List.Pairwise.imp ?_ hs⟩
  intro a b hab
  rw [ratSub_eq, ratSub_eq]
  exact sub_le_sub_left hab 1

/-- Claim C2 counterexample: the enhanced handler variant interpolates
the caller-supplied tenant into `FROM kb_vectors_{tenant}` after only a
non-emptiness check: a tenant that fails the §4.1 pattern reaches the
executed SQL verbatim. -/
theorem c2_counterexample :
    (enhanced_kb_query "acme; DROP TABLE kb_vectors_globex;--" "what is the status" 3
        (fun _ => [])).searchTables =
      ["kb_vectors_acme; DROP TABLE kb_vectors_globex;--"] ∧
    re_match_slug "acme; DROP TABLE kb_vectors_globex;--" = false ∧
    (enhanced_kb_query "acme; DROP TABLE kb_vectors_globex;--" "what is the status" 3
        (fun _ => [])).statusCode = 200 := by decide

/-- Claim C2 (amended): in the kb_manager query path the invariant holds:
every SQL statement the run executes references exactly the table
`kb_vectors_{tenant_id}`, and it is only built after `validate_input`
passed, which entails the tenant id matches the §4.1 pattern.  The
enhanced handler variant violates the invariant (see the
counterexample). -/
theorem c2_partition_invariant (t : String) (c : Option String) (q : String)
    (eo : Bool) (db : String → List TableRow) (comp : String → Option String)
    (tbl : String)
    (htbl : tbl ∈ (query_knowledge_base t c q eo db comp).searchTables) :
    tbl = "kb_vectors_" ++ t ∧ validate_input t c = [] ∧ re_match_slug t = true := by
  revert htbl
  refine qkb_elim t c q eo db comp
    (fun tr => tbl ∈ tr.searchTables →
      tbl = "kb_vectors_" ++ t ∧ validate_input t c = [] ∧ re_match_slug t = true)
    ?_ ?_ ?_ ?_ ?_ ?_ ?_ ?_
  · intro _ htbl; simp at htbl
  · intro _ _ htbl; simp at htbl
  · intro _ _ _ htbl; simp at htbl
  · intro _ _ _ _ htbl; simp at htbl
  · intro h _ _ _ _ htbl
    simp at htbl
    exact ⟨htbl, h, (validate_nil_slug t c h).2⟩
  · intro h _ _ _ _ _ htbl
    simp at htbl
    exact ⟨htbl, h, (validate_nil_slug t c h).2⟩
  · intro h _ _ _ _ _ _ htbl
    simp at htbl
    exact ⟨htbl, h, (validate_nil_slug t c h).2⟩
  · intro ans h _ _ _ _ _ _ htbl
    simp at htbl
    exact ⟨htbl, h, (validate_nil_slug t c h).2⟩

/-- Claim C2 witness: a concrete valid run executes exactly one statement,
on the requesting tenant's table. -/
theorem c2_witness :
    ("kb_vectors_acme" : String) = "kb_vectors_" ++ "acme" ∧
    validate_input "acme" (some "c1") = [] ∧ re_match_slug "acme" = true :=
  c2_partition_invariant "acme" (some "c1") "what is our status" true
    (fun _ => [⟨"i1", "chunk one", "m1", 0⟩]) (fun _ => some "ANSWER")
    "kb_vectors_acme" (by decide)

def fallback_low : ResultRecord := ⟨"low text", "m1", mkRat 1 10⟩

def fallback_high : ResultRecord := ⟨"high text", "m1", mkRat 3 20⟩

/-- Claim C4 counterexample: the fallback of lines 309-313 takes the
FIRST record of the result list, not the highest-similarity one: for
input similarities `[0.1, 0.15]` in that order, the result is the text of
the 0.1-record, not the single chunk with similarity 0.15. -/
theorem c4_counterexample :
    rankStage [fallback_low, fallback_high] = ["low text"] ∧
    rankStage [fallback_low, fallback_high] ≠ [fallback_high.text] ∧
    fallback_low.score < fallback_high.score := by decide

/-- Claim C4 (amended): filtering at `min_similarity = 0.2` keeps exactly
the records scoring at least the threshold whenever any record passes;
when none passes but the list is non-empty, the fallback returns exactly
the first record's text provided that text is non-empty — and when the
list is sorted by descending similarity, as the store returns it, that
first record is a highest-similarity record. -/
theorem c4_rank_fallback :
    (∀ results : List ResultRecord,
      results.filter (fun r => decide (simThreshold ≤ r.score)) ≠ [] →
      rankStage results =
        (results.filter (fun r => decide (simThreshold ≤ r.score))).map
          (fun r => r.text)) ∧
    (∀ (top : ResultRecord) (rest : List ResultRecord),
      List.Pairwise (fun a b : ResultRecord => b.score ≤ a.score) (top :: rest) →
      (∀ r ∈ top :: rest, r.score < simThreshold) →
      top.text ≠ "" →
      rankStage (top :: rest) = [top.text] ∧
        ∀ r ∈ top :: rest, r.score ≤ top.score) := by
  constructor
  · intro results hne
    simp only [rankStage]
    rw [if_neg]
    rintro ⟨h1, _⟩
    rw [List.map_eq_nil_iff] at h1
    exact hne h1
  · intro top rest hsort hlt htext
    have hfil : (top :: rest).filter (fun r => decide (simThreshold ≤ r.score)) = [] := by
      rw [List.filter_eq_nil_iff]
      intro a ha
      simpa using not_le.2 (hlt a ha)
    constructor
    · simp only [rankStage, hfil, List.map_nil]
      rw [if_pos (by simp), if_neg htext]
    · intro r hr
      rcases List.mem_cons.1 hr with rfl | hm
      · exact le_refl _
      · exact (List.pairwise_cons.1 hsort).1 r hm

/-- Claim C4 witness: the filter keeps a passing record; the fallback
returns the first (and here highest-similarity) record of a sorted
all-below-threshold list. -/
theorem c4_witness :
    rankStage [⟨"keep", "m1", mkRat 1 2⟩, ⟨"drop", "m1", mkRat 1 10⟩] = ["keep"] ∧
    rankStage [⟨"high text", "m1", mkRat 3 20⟩, ⟨"low text", "m1", mkRat 1 10⟩] =
      ["high text"] := by
  constructor
  · have h := c4_rank_fallback.1
      [⟨"keep", "m1", mkRat 1 2⟩, ⟨"drop", "m1", mkRat 1 10⟩] (by decide)
    rw [h]
    decide
  · exact (c4_rank_fallback.2 ⟨"high text", "m1", mkRat 3 20⟩
      [⟨"low text", "m1", mkRat 1 10⟩] (by decide) (by decide) (by decide)).1

def c5_db_row1 : TableRow := ⟨"i1", "text passing", "m1", mkRat 1 2⟩

def c5_db_row2 : TableRow := ⟨"i2", "text failing", "m1", mkRat 9 10⟩

/-- Claim C5 counterexample: with two retrieved records of which only one
survives the threshold, the returned `sources_count` is the raw record
count 2, not the ranked-chunk count 1; and the empty-retrieval answer
carries no `sources_count` at all, rather than 0. -/
theorem c5_counterexample :
    (query_knowledge_base "acme" (some "c1") "tell me things" true
        (fun _ => [c5_db_row1, c5_db_row2]) (fun _ => some "ANS")).output.sources_count =
      some 2 ∧
    (rankStage (runKbSql [c5_db_row1, c5_db_row2] 5)).length = 1 ∧
    (query_knowledge_base "acme" (some "c1") "tell me things" true
        (fun _ => []) (fun _ => some "ANS")).output.sources_count = none := by decide

/-- Claim C5 (amended): when retrieval returns no records the output is
exactly the fixed no-information answer — with no `sources_count` field —
and no completion call is made; on the success path `sources_count` is
the number of RAW retrieved records and `confidence_scores` the scores of
the first three raw records (not of the ranked chunks). -/
theorem c5_synthesis_output (t : String) (c : Option String) (q : String)
    (db : String → List TableRow) (comp : String → Option String)
    (hv : validate_input t c = []) (h3 : ¬ (pyStrip q).length < 3)
    (h10 : ¬ 1000 < q.length) :
    (runKbSql (db ("kb_vectors_" ++ t)) 5 = [] →
      (query_knowledge_base t c q true db comp).output =
        { answer := some answer_no_results } ∧
      (query_knowledge_base t c q true db comp).completionPrompts = []) ∧
    (∀ ans, rankStage (runKbSql (db ("kb_vectors_" ++ t)) 5) ≠ [] →
      comp (mkPrompt
        (String.intercalate "\n\n"
          ((rankStage (runKbSql (db ("kb_vectors_" ++ t)) 5)).take 3))
        (htmlEscape (pyStrip q))) = some ans →
      (query_knowledge_base t c q true db comp).output =
        { answer := some ans,
          sources_count := some (runKbSql (db ("kb_vectors_" ++ t)) 5).length,
          confidence_scores := some
            (((runKbSql (db ("kb_vectors_" ++ t)) 5).take 3).map
              (fun r => r.score)) }) := by
  constructor
  · intro hres
    rw [qkb_no_results t c q db comp hv h3 h10 hres]
    exact ⟨rfl, rfl⟩
  · intro ans hrank hcomp
    have hres : runKbSql (db ("kb_vectors_" ++ t)) 5 ≠ [] := by
      intro he
      rw [he] at hrank
      exact hrank (by decide)
    rw [qkb_success t c q db comp ans hv h3 h10 hres hrank hcomp]

/-- Claim C5 witness: the empty-retrieval case and a one-record success
case, concretely. -/
theorem c5_witness :
    (query_knowledge_base "acme" (some "c1") "what is new" true (fun _ => [])
        (fun _ => some "ANS")).output = { answer := some answer_no_results } ∧
    (query_knowledge_base "acme" (some "c1") "what is new" true
        (fun _ => [⟨"i1", "chunk one", "m1", 0⟩]) (fun _ => some "ANS")).output =
      { answer := some "ANS", sources_count := some 1,
        confidence_scores := some [ratSub 1 0] } := by
  constructor
  · exact ((c5_synthesis_output "acme" (some "c1") "what is new" (fun _ => [])
      (fun _ => some "ANS") (by decide) (by decide) (by decide)).1 (by decide)).1
  · have h := (c5_synthesis_output "acme" (some "c1") "what is new"
      (fun _ => [⟨"i1", "chunk one", "m1", 0⟩]) (fun _ => some "ANS") (by decide)
      (by decide) (by decide)).2 "ANS" (by decide) rfl
    rw [h]
    decide

/-- Claim C6 counterexample: when the completion call raises after a
successful retrieval, `query_knowledge_base` returns an error outcome
(status 500) with no answer — there is no retry and no degradation to
returning the chunk text. -/
theorem c6_counterexample :
    (query_knowledge_base "acme" (some "c1") "what is our status" true
        (fun _ => [⟨"i1", "Implementation stage (phase 3 of 5)", "m1", mkRat 1 2⟩])
        (fun _ => none)).output =
      { error := some msg_query_failed, statusCode := some 500 } ∧
    (query_knowledge_base "acme" (some "c1") "what is our status" true
        (fun _ => [⟨"i1", "Implementation stage (phase 3 of 5)", "m1", mkRat 1 2⟩])
        (fun _ => none)).output.answer = none := by decide

/-- Claim C6 (amended): the completion model is invoked at most once per
query (never retried), and a run whose completion call raises ends as a
500 error output — a synthesis failure does fail the whole query. -/
theorem c6_completion_failure (t : String) (c : Option String) (q : String)
    (eo : Bool) (db : String → List TableRow) (comp : String → Option String) :
    (query_knowledge_base t c q eo db comp).completionPrompts.length ≤ 1 ∧
    ((query_knowledge_base t c q true db (fun _ => none)).completionPrompts ≠ [] →
      (query_knowledge_base t c q true db (fun _ => none)).output =
        { error := some msg_query_failed, statusCode := some 500 }) := by
  constructor
  · refine qkb_elim t c q eo db comp (fun tr => tr.completionPrompts.length ≤ 1)
      ?_ ?_ ?_ ?_ ?_ ?_ ?_ ?_ <;> intros <;> simp
  · refine qkb_elim t c q true db (fun _ => none)
      (fun tr => tr.completionPrompts ≠ [] →
        tr.output = { error := some msg_query_failed, statusCode := some 500 })
      ?_ ?_ ?_ ?_ ?_ ?_ ?_ ?_
    · intro _ hne; exact absurd rfl hne
    · intro _ _ hne; exact absurd rfl hne
    · intro _ _ _ hne; exact absurd rfl hne
    · intro _ _ _ _ hne; exact absurd rfl hne
    · intro _ _ _ _ _ hne; exact absurd rfl hne
    · intro _ _ _ _ _ _ hne; exact absurd rfl hne
    · intro _ _ _ _ _ _ _ _; rfl
    · intro ans _ _ _ _ _ _ hcomp; simp at hcomp

/-- Claim C6 witness: a concrete run with a failing completion call. -/
theorem c6_witness :
    (query_knowledge_base "acme" (some "c1") "what is our status" true
        (fun _ => [⟨"i2", "some chunk", "m1", 0⟩]) (fun _ => none)).output =
      { error := some msg_query_failed, statusCode := some 500 } :=
  (c6_completion_failure "acme" (some "c1") "what is our status" true
      (fun _ => [⟨"i2", "some chunk", "m1", 0⟩]) (fun _ => none)).2 (by decide)

/-- Claim C3: validation raises-iff for the kb_manager query path.  The
tenant messages appear exactly when the tenant id is empty or fails
`^[a-zA-Z0-9_-]{1,20}$` (Python `re.match` semantics); the customer
messages exactly when a provided customer id fails the pattern; the
too-short error exactly when ids are valid and the trimmed query is
shorter than 3; the too-long error exactly when ids are valid, the
trimmed query is long enough, and the raw query exceeds 1000 characters;
otherwise validation passes (no 400), and on any validation failure no
embedding, search, or completion call is made. -/
theorem c3_validation_iff (t : String) (c : Option String) (q : String)
    (eo : Bool) (db : String → List TableRow) (comp : String → Option String) :
    ((msg_tenant_required ∈ validate_input t c ∨ msg_tenant_invalid ∈ validate_input t c)
      ↔ (t = "" ∨ re_match_slug t = false)) ∧
    ((msg_customer_required ∈ validate_input t c ∨
        msg_customer_invalid ∈ validate_input t c)
      ↔ (∃ cid, c = some cid ∧ re_match_slug cid = false)) ∧
    ((query_knowledge_base t c q eo db comp).output.error = some msg_query_short
      ↔ (validate_input t c = [] ∧ (pyStrip q).length < 3)) ∧
    ((query_knowledge_base t c q eo db comp).output.error = some msg_query_long
      ↔ (validate_input t c = [] ∧ ¬ (pyStrip q).length < 3 ∧ 1000 < q.length)) ∧
    (validate_input t c = [] → ¬ (pyStrip q).length < 3 → ¬ 1000 < q.length →
      (query_knowledge_base t c q eo db comp).output.statusCode ≠ some 400) ∧
    ((query_knowledge_base t c q eo db comp).output.statusCode = some 400 →
      (query_knowledge_base t c q eo db comp).embedInputs = [] ∧
      (query_knowledge_base t c q eo db comp).searchTables = [] ∧
      (query_knowledge_base t c q eo db comp).completionPrompts = []) := by
  refine ⟨tenant_error_iff t c, customer_error_iff t c, ?_⟩
  have hmain := qkb_elim t c q eo db comp (fun tr =>
    (tr.output.error = some msg_query_short
      ↔ (validate_input t c = [] ∧ (pyStrip q).length < 3)) ∧
    (tr.output.error = some msg_query_long
      ↔ (validate_input t c = [] ∧ ¬ (pyStrip q).length < 3 ∧ 1000 < q.length)) ∧
    (validate_input t c = [] → ¬ (pyStrip q).length < 3 → ¬ 1000 < q.length →
      tr.output.statusCode ≠ some 400) ∧
    (tr.output.statusCode = some 400 →
      tr.embedInputs = [] ∧ tr.searchTables = [] ∧ tr.completionPrompts = []))
    ?_ ?_ ?_ ?_ ?_ ?_ ?_ ?_
  · exact ⟨hmain.1, hmain.2.1, hmain.2.2.1, hmain.2.2.2⟩
  · intro hv
    obtain ⟨hs, hl⟩ := validate_join_ne t c hv
    refine ⟨?_, ?_, ?_, fun _ => ⟨rfl, rfl, rfl⟩⟩
    · constructor
      · intro he
        simp at he
        exact absurd he hs
      · rintro ⟨he, _⟩
        exact absurd he hv
    · constructor
      · intro he
        simp at he
        exact absurd he hl
      · rintro ⟨he, _⟩
        exact absurd he hv
    · intro hv' _ _
      exact absurd hv' hv
  · intro h h3
    refine ⟨?_, ?_, ?_, fun _ => ⟨rfl, rfl, rfl⟩⟩
    · simp [h, h3]
    · constructor
      · intro he
        simp at he
        exact absurd he (by decide)
      · rintro ⟨_, h3', _⟩
        exact absurd h3 h3'
    · intro _ h3' _
      exact absurd h3 h3'
  · intro h h3 h10
    refine ⟨?_, ?_, ?_, fun _ => ⟨rfl, rfl, rfl⟩⟩
    · constructor
      · intro he
        simp at he
        exact absurd he.symm (by decide)
      · rintro ⟨_, h3'⟩
        exact absurd h3' h3
    · simp [h, h3, h10]
    · intro _ _ h10'
      exact absurd h10 h10'
  · intro h h3 h10 _
    refine ⟨?_, ?_, ?_, ?_⟩
    · constructor
      · intro he
        simp at he
        exact absurd he (by decide)
      · rintro ⟨_, h3'⟩
        exact absurd h3' h3
    · constructor
      · intro he
        simp at he
        exact absurd he (by decide)
      · rintro ⟨_, _, h10'⟩
        exact absurd h10' h10
    · intro _ _ _
      simp
    · intro hsc
      simp at hsc
  · intro h h3 h10 _ _
    refine ⟨?_, ?_, ?_, ?_⟩
    · constructor
      · intro he
        simp at he
      · rintro ⟨_, h3'⟩
        exact absurd h3' h3
    · constructor
      · intro he
        simp at he
      · rintro ⟨_, _, h10'⟩
        exact absurd h10' h10
    · intro _ _ _
      simp
    · intro hsc
      simp at hsc
  · intro h h3 h10 _ _ _
    refine ⟨?_, ?_, ?_, ?_⟩
    · constructor
      · intro he
        simp at he
      · rintro ⟨_, h3'⟩
        exact absurd h3' h3
    · constructor
      · intro he
        simp at he
      · rintro ⟨_, _, h10'⟩
        exact absurd h10' h10
    · intro _ _ _
      simp
    · intro hsc
      simp at hsc
  · intro h h3 h10 _ _ _ _
    refine ⟨?_, ?_, ?_, ?_⟩
    · constructor
      · intro he
        simp at he
        exact absurd he (by decide)
      · rintro ⟨_, h3'⟩
        exact absurd h3' h3
    · constructor
      · intro he
        simp at he
        exact absurd he (by decide)
      · rintro ⟨_, _, h10'⟩
        exact absurd h10' h10
    · intro _ _ _
      simp
    · intro hsc
      simp at hsc
  · intro ans h h3 h10 _ _ _ _
    refine ⟨?_, ?_, ?_, ?_⟩
    · constructor
      · intro he
        simp at he
      · rintro ⟨_, h3'⟩
        exact absurd h3' h3
    · constructor
      · intro he
        simp at he
      · rintro ⟨_, _, h10'⟩
        exact absurd h10' h10
    · intro _ _ _
      simp
    · intro hsc
      simp at hsc

/-- Claim C3 witness: concrete instances of each characterization —
`"acme!"` fails the tenant pattern, a two-character query is too short,
and a validation failure makes no external call. -/
theorem c3_witness :
    msg_tenant_invalid ∈ validate_input "acme!" none ∧
    ((query_knowledge_base "acme" (some "c1") "ab" true (fun _ => [])
        (fun _ => none)).output.error = some msg_query_short) ∧
    (query_knowledge_base "acme!" (some "c1") "hello" true (fun _ => [])
        (fun _ => none)).embedInputs = [] := by
  refine ⟨?_, ?_, ?_⟩
  · rcases (c3_validation_iff "acme!" none "hello" true (fun _ => [])
      (fun _ => none)).1.mpr (Or.inr (by decide)) with hm | hm
    · exact absurd hm (by decide)
    · exact hm
  · exact (c3_validation_iff "acme" (some "c1") "ab" true (fun _ => [])
      (fun _ => none)).2.2.1.mpr ⟨by decide, by decide⟩
  · exact ((c3_validation_iff "acme!" (some "c1") "hello" true (fun _ => [])
      (fun _ => none)).2.2.2.2.2 (by decide)).1

/-- Claim C8 counterexample: the simple handler — the one housing the
cross-tenant filter — applies no sanitization: the raw query is echoed in
the 200 response body unescaped (and the filter fired on the raw
lower-cased text), while the HTML-escape of the trimmed query differs. -/
theorem c8_counterexample :
    (simple_kb_query "acme" "globex <b>attack</b>" true).echoedQuery =
      some "globex <b>attack</b>" ∧
    htmlEscape (pyStrip "globex <b>attack</b>") ≠ "globex <b>attack</b>" ∧
    (simple_kb_query "acme" "globex <b>attack</b>" true).results =
      [privacy_doc "acme"] := by decide

/-- Claim C8 (amended): in the kb_manager query path, for every query
passing validation, the text sent to the embedding service is exactly the
HTML-escape of the trimmed raw query, and every completion prompt embeds
exactly that sanitized text in its user-question slot.  The cross-tenant
filter exists only in the simple handler, where it operates on the raw
lower-cased query, with no sanitization anywhere in that handler
(counterexample). -/
theorem c8_sanitization (t : String) (c : Option String) (q : String)
    (eo : Bool) (db : String → List TableRow) (comp : String → Option String)
    (hv : validate_input t c = []) (h3 : ¬ (pyStrip q).length < 3)
    (h10 : ¬ 1000 < q.length) :
    (query_knowledge_base t c q eo db comp).embedInputs =
      [htmlEscape (pyStrip q)] ∧
    (∀ p ∈ (query_knowledge_base t c q eo db comp).completionPrompts,
      ∃ ctx, p = mkPrompt ctx (htmlEscape (pyStrip q))) := by
  refine qkb_elim t c q eo db comp
    (fun tr => tr.embedInputs = [htmlEscape (pyStrip q)] ∧
      ∀ p ∈ tr.completionPrompts, ∃ ctx, p = mkPrompt ctx (htmlEscape (pyStrip q)))
    ?_ ?_ ?_ ?_ ?_ ?_ ?_ ?_
  · intro hv'
    exact (hv' hv).elim
  · intro _ h3'
    exact (h3 h3').elim
  · intro _ _ h10'
    exact (h10 h10').elim
  · intro _ _ _ _
    exact ⟨rfl, by simp⟩
  · intro _ _ _ _ _
    exact ⟨rfl, by simp⟩
  · intro _ _ _ _ _ _
    exact ⟨rfl, by simp⟩
  · intro _ _ _ _ _ _ _
    refine ⟨rfl, ?_⟩
    intro p hp
    rw [List.mem_singleton] at hp
    exact ⟨String.intercalate "\n\n"
      ((rankStage (runKbSql (db ("kb_vectors_" ++ t)) 5)).take 3), hp⟩
  · intro ans _ _ _ _ _ _ _
    refine ⟨rfl, ?_⟩
    intro p hp
    rw [List.mem_singleton] at hp
    exact ⟨String.intercalate "\n\n"
      ((rankStage (runKbSql (db ("kb_vectors_" ++ t)) 5)).take 3), hp⟩

/-- Claim C8 witness: a concrete valid run embeds exactly the sanitized
trimmed query. -/
theorem c8_witness :
    (query_knowledge_base "acme" (some "c1") " what is <new> " true (fun _ => [])
        (fun _ => none)).embedInputs = [htmlEscape (pyStrip " what is <new> ")] :=
  (c8_sanitization "acme" (some "c1") " what is <new> " true (fun _ => [])
    (fun _ => none) (by decide) (by decide) (by decide)).1

/-- Claim C1 counterexample: the kb_manager query path has no cross-tenant
filter: for allow-listed tenant `acme`, the query "what is globex doing" —
whose lower-cased text contains the other known tenant slug `globex` —
still executes the vector search on the tenant table, and the outcome is
the retrieval answer, not a blocked privacy message. -/
theorem c1_counterexample :
    (query_knowledge_base "acme" (some "c1") "what is globex doing" true
        (fun _ => []) (fun _ => none)).searchTables = ["kb_vectors_acme"] ∧
    (query_knowledge_base "acme" (some "c1") "what is globex doing" true
        (fun _ => []) (fun _ => none)).output.answer = some answer_no_results := by
  decide

set_option maxRecDepth 8192 in
/-- Claim C1 (amended): in the simple handler variant — the one that
implements the filter — every allow-listed tenant and non-empty query
whose lower-cased text contains another known tenant's slug as a
substring is answered with status 200 and exactly the fixed
privacy-preserving result, whose text and metadata mention the requesting
tenant and no other known tenant; that handler performs no vector search
at all.  The kb_manager query path searches regardless
(counterexample). -/
theorem c1_cross_tenant_blocked (tenant query : String)
    (htm : tenant ∈ valid_tenants) (hq : query ≠ "")
    (hcross : ∃ o ∈ valid_tenants.erase tenant, SubstrOf o (pyLower query)) :
    simple_kb_query tenant query true =
      { statusCode := 200, results := [privacy_doc tenant],
        echoedQuery := some query } ∧
    ∀ o ∈ valid_tenants.erase tenant,
      containsSub (pyLower (String.intercalate " "
        ((privacy_doc tenant).text :: (privacy_doc tenant).metadata.map
          (fun p => p.2)))) o = false := by
  obtain ⟨o, ho, hsub⟩ := hcross
  have hlow : pyLower tenant = tenant := by
    have hall : ∀ x ∈ valid_tenants, pyLower x = x := by decide
    exact hall tenant htm
  have hcs : containsSub (pyLower query) o = true := (containsSub_iff _ _).2 hsub
  have hany : ((valid_tenants.erase tenant).any
      (fun o => containsSub (pyLower query) o)) = true :=
    List.any_eq_true.2 ⟨o, ho, hcs⟩
  have hne1 : ¬ (tenant = "" ∨ query = "") := by
    rintro (h1 | h2)
    · have hnz : ∀ x ∈ valid_tenants, x ≠ "" := by decide
      exact hnz tenant htm h1
    · exact hq h2
  have hne2 : ¬¬ (tenant ∈ valid_tenants ∧ True) := not_not_intro ⟨htm, trivial⟩
  constructor
  · simp only [simple_kb_query, hlow]
    rw [if_neg hne1, if_neg hne2, if_pos hany]
  · have hmention : ∀ x ∈ valid_tenants, ∀ o ∈ valid_tenants.erase x,
        containsSub (pyLower (String.intercalate " "
          ((privacy_doc x).text :: (privacy_doc x).metadata.map
            (fun p => p.2)))) o = false := by decide
    exact hmention tenant htm

/-- Claim C1 witness: tenant `acme`, query "what is globex doing". -/
theorem c1_witness :
    simple_kb_query "acme" "what is globex doing" true =
      { statusCode := 200, results := [privacy_doc "acme"],
        echoedQuery := some "what is globex doing" } :=
  (c1_cross_tenant_blocked "acme" "what is globex doing" (by decide) (by decide)
    ⟨"globex", by decide, ⟨8, by decide⟩⟩).1

end Cloudable
